import Mathlib

/-!
Verification of the bets ledger (src/main.py) against its specification.

The program is a sports-betting tracker backed by a SQLite table `bets`
with columns (id, sport, team, odds, amount, potential_win, result, date).
We embed the table as a list of rows.  SQL `REAL` values are modelled as
rationals, `result` (nullable boolean: NULL = pending, 1 = won, 0 = lost)
as `Option Bool`, and the `date` timestamp as a natural number where a
larger value means placed later.
-/

/-- One row of the `bets` table. -/
structure BetRow where
  id : Nat
  sport : String
  team : String
  odds : ℚ
  amount : ℚ
  potential_win : ℚ
  result : Option Bool
  date : Nat
deriving Repr, DecidableEq

/-- The whole `bets` table, in insertion (rowid) order. -/
abbrev DB := List BetRow

/-- SQL `SUM` over a column: `NULL` (here `none`) when there are no rows,
otherwise the sum of the values. -/
def sqlSum (l : List ℚ) : Option ℚ :=
  if l.isEmpty then none else some l.sum

/-- SQL `SUM` over an integer column such as `CASE WHEN result = 1 THEN 1 ELSE 0 END`. -/
def sqlSumN (l : List Nat) : Option Nat :=
  if l.isEmpty then none else some l.sum

/-- Python `x or 0` applied to a possibly-NULL SQL aggregate: `None` becomes `0`
(and a numeric `0` stays `0`). -/
def orZero (o : Option ℚ) : ℚ := o.getD 0

/-- Python `x or 0` for integer aggregates. -/
def orZeroN (o : Option Nat) : Nat := o.getD 0

namespace Bet

/-- `Bet._calculate_potential_win` (src/main.py lines 236-240):
if `self.odds >= 0` return `(self.odds / 100) * self.amount`
else return `(100 / abs(self.odds)) * self.amount`. -/
def calculate_potential_win (odds amount : ℚ) : ℚ :=
  if 0 ≤ odds then (odds / 100) * amount
  else (100 / |odds|) * amount

end Bet

namespace Database

/-- `Database._calculate_potential_win` (src/main.py lines 56-60):
if `odds >= 0` return `(odds / 100) * amount`
else return `(100 / abs(odds)) * amount`. -/
def calculate_potential_win (odds amount : ℚ) : ℚ :=
  if 0 ≤ odds then (odds / 100) * amount
  else (100 / |odds|) * amount

/-- The fresh id handed out by SQLite `AUTOINCREMENT` on insert:
one more than the largest id in the table. -/
def next_id (db : DB) : Nat := (db.map (·.id)).foldr max 0 + 1

/-- `Database.add_bet` (src/main.py lines 113-121): INSERT the bet's fields;
`result` is not in the column list so it defaults to NULL (pending).
The constructor `Bet.__init__` (lines 227-234) performs no validation and
computes `potential_win` via `Bet._calculate_potential_win`.
Returns the new table and `cursor.lastrowid`. -/
def add_bet (db : DB) (sport team : String) (odds amount : ℚ) (date : Nat) :
    DB × Nat :=
  let i := next_id db
  (db ++ [⟨i, sport, team, odds, amount,
          Bet.calculate_potential_win odds amount, none, date⟩], i)

/-- `Database.update_bet_result` (src/main.py lines 123-131):
`UPDATE bets SET result = ? WHERE id = ?` — note there is no
`AND result IS NULL` guard and no row-count check; every row whose id
matches gets the new result, unconditionally, and nothing is returned. -/
def update_bet_result (db : DB) (bet_id : Nat) (result : Bool) : DB :=
  db.map (fun b => if b.id = bet_id then { b with result := some result } else b)

/-- `Database.remove_pending_bet` (src/main.py lines 31-39):
`DELETE FROM bets WHERE id = ? AND result IS NULL`; returns
`cursor.rowcount > 0`, i.e. whether at least one row was deleted. -/
def remove_pending_bet (db : DB) (bet_id : Nat) : DB × Bool :=
  (db.filter (fun b => !(b.id == bet_id && b.result.isNone)),
   0 < (db.filter (fun b => b.id == bet_id && b.result.isNone)).length)

/-- `Database.edit_pending_bet` (src/main.py lines 41-54):
recomputes `potential_win` via `Database._calculate_potential_win`, then
`UPDATE bets SET sport, team, odds, amount, potential_win WHERE id = ? AND
result IS NULL`; returns `cursor.rowcount > 0`. -/
def edit_pending_bet (db : DB) (bet_id : Nat) (sport team : String)
    (odds amount : ℚ) : DB × Bool :=
  let pw := calculate_potential_win odds amount
  (db.map (fun b =>
     if b.id == bet_id && b.result.isNone then
       { b with sport := sport, team := team, odds := odds,
                amount := amount, potential_win := pw }
     else b),
   0 < (db.filter (fun b => b.id == bet_id && b.result.isNone)).length)

/-- Result dictionary of `Database.get_statistics` (src/main.py lines 173-181). -/
structure Statistics where
  total_bets : Nat
  completed_bets : Nat
  wins : Nat
  total_wagered : ℚ
  pending_wagers : ℚ
  completed_wagers : ℚ
  total_profit : ℚ
deriving Repr, DecidableEq

/-- `Database.get_statistics` (src/main.py lines 144-181):
- `total_bets` = `COUNT(*)`;
- `completed_bets`, `wins` from `SELECT COUNT(*), SUM(CASE WHEN result = 1
  THEN 1 ELSE 0 END) FROM bets WHERE result IS NOT NULL`, each passed
  through `or 0`;
- the financial row sums `amount`, `CASE WHEN result IS NULL THEN amount
  ELSE 0 END`, `CASE WHEN result IS NOT NULL THEN amount ELSE 0 END` and
  `CASE WHEN result = 1 THEN potential_win WHEN result = 0 THEN -amount
  ELSE 0 END` over all rows, each passed through `or 0`. -/
def get_statistics (db : DB) : Statistics :=
  let completed := db.filter (fun b => b.result.isSome)
  { total_bets := db.length
    completed_bets := orZeroN (some completed.length)
    wins := orZeroN (sqlSumN (completed.map
      (fun b => if b.result = some true then 1 else 0)))
    total_wagered := orZero (sqlSum (db.map (·.amount)))
    pending_wagers := orZero (sqlSum (db.map
      (fun b => if b.result = none then b.amount else 0)))
    completed_wagers := orZero (sqlSum (db.map
      (fun b => if b.result.isSome then b.amount else 0)))
    total_profit := orZero (sqlSum (db.map (fun b =>
      match b.result with
      | some true => b.potential_win
      | some false => -b.amount
      | none => 0))) }

/-- Result dictionary of `Database.get_statistics_by_sport`
(src/main.py lines 102-111). -/
structure SportStatistics where
  sport : String
  total_bets : Nat
  completed_bets : Nat
  wins : Nat
  total_wagered : ℚ
  pending_wagers : ℚ
  completed_wagers : ℚ
  total_profit : ℚ
deriving Repr, DecidableEq

/-- `Database.get_statistics_by_sport` (src/main.py lines 68-111): the same
queries as `get_statistics`, each restricted by `WHERE sport = ?`. -/
def get_statistics_by_sport (db : DB) (sport : String) : SportStatistics :=
  let rows := db.filter (fun b => b.sport = sport)
  let completed := rows.filter (fun b => b.result.isSome)
  { sport := sport
    total_bets := rows.length
    completed_bets := orZeroN (some completed.length)
    wins := orZeroN (sqlSumN (completed.map
      (fun b => if b.result = some true then 1 else 0)))
    total_wagered := orZero (sqlSum (rows.map (·.amount)))
    pending_wagers := orZero (sqlSum (rows.map
      (fun b => if b.result = none then b.amount else 0)))
    completed_wagers := orZero (sqlSum (rows.map
      (fun b => if b.result.isSome then b.amount else 0)))
    total_profit := orZero (sqlSum (rows.map (fun b =>
      match b.result with
      | some true => b.potential_win
      | some false => -b.amount
      | none => 0))) }

/-- The comparator realising `ORDER BY date DESC`: a row comes no later than
another when its date is at least as large. -/
def dateDesc (a b : BetRow) : Bool := decide (b.date ≤ a.date)

/-- The rows selected by `Database.get_pending_bets` before projection:
`WHERE result IS NULL ORDER BY date DESC` (src/main.py lines 133-142).
`ORDER BY date DESC` is modelled as a stable merge sort by descending date. -/
def pending_sorted (db : DB) : DB :=
  (db.filter (fun b => b.result.isNone)).mergeSort dateDesc

/-- One tuple returned by `Database.get_pending_bets`:
`SELECT id, sport, team, odds, amount, potential_win`. -/
structure PendingTuple where
  id : Nat
  sport : String
  team : String
  odds : ℚ
  amount : ℚ
  potential_win : ℚ
deriving Repr, DecidableEq

/-- Projection of a row onto the six selected columns. -/
def projPending (b : BetRow) : PendingTuple :=
  ⟨b.id, b.sport, b.team, b.odds, b.amount, b.potential_win⟩

/-- `Database.get_pending_bets` (src/main.py lines 133-142). -/
def get_pending_bets (db : DB) : List PendingTuple :=
  (pending_sorted db).map projPending

/-- Result dictionary of `Database.get_pending_bets_summary`
(src/main.py lines 219-224). -/
structure PendingSummary where
  count : Nat
  total_pending : ℚ
  total_potential : ℚ
  sports_breakdown : List (String × Nat)
deriving Repr, DecidableEq

/-- The `GROUP BY sport ORDER BY count DESC` query of
`get_pending_bets_summary` (src/main.py lines 210-217): one (sport, count)
pair per distinct sport among pending rows, sorted by descending count. -/
def sports_breakdown (db : DB) : List (String × Nat) :=
  let pend := db.filter (fun b => b.result.isNone)
  ((pend.map (·.sport)).dedup.map
    (fun s => (s, (pend.filter (fun b => b.sport = s)).length))).mergeSort
    (fun a b => b.2 ≤ a.2)

/-- `Database.get_pending_bets_summary` (src/main.py lines 194-224):
`SELECT COUNT(*), SUM(amount), SUM(potential_win) FROM bets WHERE result IS
NULL`, each aggregate passed through `or 0`, plus the per-sport breakdown. -/
def get_pending_bets_summary (db : DB) : PendingSummary :=
  let pend := db.filter (fun b => b.result.isNone)
  { count := orZeroN (some pend.length)
    total_pending := orZero (sqlSum (pend.map (·.amount)))
    total_potential := orZero (sqlSum (pend.map (·.potential_win)))
    sports_breakdown := sports_breakdown db }

end Database

/-- The win-rate display of `display_statistics` (src/main.py lines 262-268):
the win rate is computed and printed only inside
`if stats['completed_bets'] > 0`, as `(stats['wins'] / stats['completed_bets']) * 100`;
when there are no completed bets no win rate is computed or reported at all,
modelled as `none`. -/
def displayed_win_rate (s : Database.Statistics) : Option ℚ :=
  if 0 < s.completed_bets then
    some ((s.wins : ℚ) / (s.completed_bets : ℚ) * 100)
  else none

/-- The spec's profit of a single bet (§4.3): `potentialWin` if won,
`-amount` if lost, `0` if pending. -/
def specProfit (b : BetRow) : ℚ :=
  match b.result with
  | some true => b.potential_win
  | some false => -b.amount
  | none => 0

/-- The ledger states reachable by any sequence of `add` and `resolve`
operations starting from an empty table. -/
inductive Reachable : DB → Prop where
  | empty : Reachable []
  | add (db : DB) (sport team : String) (odds amount : ℚ) (date : Nat) :
      Reachable db → Reachable (Database.add_bet db sport team odds amount date).1
  | resolve (db : DB) (bet_id : Nat) (won : Bool) :
      Reachable db → Reachable (Database.update_bet_result db bet_id won)

/-- C1: for amount > 0 and odds ≠ 0, the potential-win computation — both the
one in `Bet` used at creation and the one in `Database` used by the ledger —
returns `(odds / 100) * amount` when odds ≥ 0 and `(100 / |odds|) * amount`
when odds < 0. -/
theorem C1_potential_win (odds amount : ℚ) (hamt : 0 < amount) (hodds : odds ≠ 0) :
    (0 ≤ odds →
      Bet.calculate_potential_win odds amount = (odds / 100) * amount ∧
      Database.calculate_potential_win odds amount = (odds / 100) * amount) ∧
    (odds < 0 →
      Bet.calculate_potential_win odds amount = (100 / |odds|) * amount ∧
      Database.calculate_potential_win odds amount = (100 / |odds|) * amount) := by
  constructor
  · intro h
    simp [Bet.calculate_potential_win, Database.calculate_potential_win, h]
  · intro h
    simp [Bet.calculate_potential_win, Database.calculate_potential_win, not_le.mpr h]

/-- Witness for C1 at odds = -110, amount = 110: the potential win is 100. -/
theorem C1_potential_win_witness :
    (0:ℚ) < 110 ∧ (-110:ℚ) ≠ 0 ∧
    Bet.calculate_potential_win (-110) 110 = (100 / |(-110:ℚ)|) * 110 := by
  refine ⟨by norm_num, by norm_num, ?_⟩
  exact ((C1_potential_win (-110) 110 (by norm_num) (by norm_num)).2 (by norm_num)).1

/-- C9: the potential-win function used at bet creation
(`Bet._calculate_potential_win`) and the one used when editing a pending bet
(`Database._calculate_potential_win`) agree on every (odds, amount) pair. -/
theorem C9_calculators_agree (odds amount : ℚ) :
    Bet.calculate_potential_win odds amount =
      Database.calculate_potential_win odds amount := rfl

/-! ### Helper lemmas -/

/-- Splitting the wagered sum by pending/completed status, row by row. -/
theorem sum_amount_split (db : DB) :
    (db.map (·.amount)).sum =
      (db.map (fun b => if b.result = none then b.amount else 0)).sum +
      (db.map (fun b => if b.result.isSome then b.amount else 0)).sum := by
  induction db with
  | nil => simp
  | cons b t ih =>
    simp only [List.map_cons, List.sum_cons]
    rcases hb : b.result with _ | v <;> simp [hb, ih] <;> ring

/-- The SQL `SUM` of the profit column followed by `or 0` is the plain sum. -/
theorem profit_orZero (l : List BetRow) :
    orZero (sqlSum (l.map specProfit)) = (l.map specProfit).sum := by
  rcases l with _ | ⟨b, t⟩ <;> simp [sqlSum, orZero]

/-- The win-indicator sum used by the statistics queries is a count. -/
theorem sum_win_indicator (l : List BetRow) :
    (l.map (fun b => if b.result = some true then 1 else 0)).sum =
      l.countP (fun b => b.result == some true) := by
  induction l with
  | nil => simp
  | cons b t ih =>
    by_cases hb : b.result = some true <;>
      simp [List.countP_cons, hb, ih, Nat.add_comm]

/-- The `wins` field of `get_statistics` counts the rows resolved as won. -/
theorem get_statistics_wins (db : DB) :
    (Database.get_statistics db).wins =
      db.countP (fun b => b.result == some true) := by
  have hcount : (db.filter (fun b => b.result.isSome)).countP
      (fun b => b.result == some true) =
      db.countP (fun b => b.result == some true) := by
    rw [List.countP_filter]
    refine List.countP_congr ?_
    intro b hb
    rcases hr : b.result with _ | v
    · simp [hr]
    · rcases v with _ | _ <;> simp [hr]
  show orZeroN (sqlSumN ((db.filter (fun b => b.result.isSome)).map
      (fun b => if b.result = some true then 1 else 0))) = _
  rw [← hcount]
  generalize db.filter (fun b => b.result.isSome) = l
  rcases l with _ | ⟨b, t⟩
  · simp [sqlSumN, orZeroN]
  · simp only [sqlSumN, orZeroN, List.map_cons, List.isEmpty_cons,
      Bool.false_eq_true, if_false, Option.getD_some, ← List.sum_cons,
      ← List.map_cons]
    exact sum_win_indicator (b :: t)

/-- The `completed_bets` field of `get_statistics` counts resolved rows. -/
theorem get_statistics_completed_bets (db : DB) :
    (Database.get_statistics db).completed_bets =
      (db.filter (fun b => b.result.isSome)).length := rfl

/-- C2 counterexample: the claim says a second resolve on an already-resolved
bet fails with AlreadyResolved and never flips Won to Lost.  The code's
`update_bet_result` has no pending guard: resolving the already-Won bet 1 as
lost overwrites its stored result with Lost. -/
theorem C2_counterexample_resolve_flips :
    Database.update_bet_result
        [⟨1, "NFL", "Eagles", 150, 100, 150, some true, 7⟩] 1 false =
      [⟨1, "NFL", "Eagles", 150, 100, 150, some false, 7⟩] := by decide

/-- C2 amended: `update_bet_result(id, won)` performs no existence or
pending check and signals no error: it leaves the table length unchanged,
overwrites the result of every row whose id matches (even an
already-resolved one, flipping Won↔Lost), leaves other rows unchanged, and
is a silent no-op when no row has the id. -/
theorem C2_amended_resolve_overwrites (db : DB) (bet_id : Nat) (won : Bool) :
    (Database.update_bet_result db bet_id won).length = db.length ∧
    (∀ b ∈ db, b.id = bet_id →
      { b with result := some won } ∈ Database.update_bet_result db bet_id won) ∧
    (∀ b ∈ db, b.id ≠ bet_id → b ∈ Database.update_bet_result db bet_id won) ∧
    ((∀ b ∈ db, b.id ≠ bet_id) → Database.update_bet_result db bet_id won = db) := by
  refine ⟨List.length_map _ _, ?_, ?_, ?_⟩
  · intro b hb hid
    have h := List.mem_map_of_mem
      (fun x => if x.id = bet_id then { x with result := some won } else x) hb
    simpa [Database.update_bet_result, hid] using h
  · intro b hb hid
    have h := List.mem_map_of_mem
      (fun x => if x.id = bet_id then { x with result := some won } else x) hb
    simpa [Database.update_bet_result, hid] using h
  · intro h
    unfold Database.update_bet_result
    calc db.map (fun b => if b.id = bet_id then { b with result := some won } else b)
        = db.map id := List.map_congr_left (fun x hx => by simp [h x hx])
      _ = db := List.map_id db

/-- Witness for C2 amended: in a one-row table holding the pending bet 1,
resolving bet 1 as won stores result Won for it. -/
theorem C2_amended_witness :
    (⟨1, "NFL", "Eagles", 150, 100, 150, some true, 7⟩ : BetRow) ∈
      Database.update_bet_result
        [⟨1, "NFL", "Eagles", 150, 100, 150, none, 7⟩] 1 true :=
  (C2_amended_resolve_overwrites
      [⟨1, "NFL", "Eagles", 150, 100, 150, none, 7⟩] 1 true).2.1
    ⟨1, "NFL", "Eagles", 150, 100, 150, none, 7⟩ (by decide) rfl

/-- C3 counterexample: the claim says `add` rejects empty sport/team,
non-positive amounts and zero odds, storing nothing.  The code validates
nothing: adding a bet with empty sport, empty team, odds 0 and amount -5 to
the empty table stores the row (with potential win 0) and returns its id. -/
theorem C3_counterexample_no_validation :
    Database.add_bet [] "" "" 0 (-5) 0 =
      ([⟨1, "", "", 0, -5, 0, none, 0⟩], 1) := by
  simp only [Database.add_bet, Database.next_id, Bet.calculate_potential_win,
    List.map_nil, List.foldr_nil, List.nil_append]
  norm_num

/-- C3 amended: neither `Bet.__init__` nor `Database.add_bet` validates its
inputs; for every sport, team, odds and amount — empty strings, zero odds
and non-positive amounts included — the bet is stored: the table grows by
one and contains the new row with the given fields, pending result and the
computed potential win.  No error is ever raised.  (Only the CLI's
`get_valid_float` re-prompts for a positive amount; the odds prompt accepts
0 and the sport/team prompts accept empty strings even there.) -/
theorem C3_amended_add_stores_anything (db : DB) (sport team : String)
    (odds amount : ℚ) (date : Nat) :
    ((Database.add_bet db sport team odds amount date).1).length = db.length + 1 ∧
    (⟨Database.next_id db, sport, team, odds, amount,
      Bet.calculate_potential_win odds amount, none, date⟩ : BetRow) ∈
      (Database.add_bet db sport team odds amount date).1 := by
  constructor
  · simp [Database.add_bet]
  · simp [Database.add_bet]

/-- C4: in a table with unique ids, calling `remove_pending_bet` or
`edit_pending_bet` on the id of a resolved (Won or Lost) bet returns false
and leaves the whole table — in particular every stored field of that
bet — unchanged. -/
theorem C4_resolved_immutable (db : DB) (hnd : (db.map (·.id)).Nodup)
    (b : BetRow) (hb : b ∈ db) (hres : b.result ≠ none)
    (sport team : String) (odds amount : ℚ) :
    Database.remove_pending_bet db b.id = (db, false) ∧
    Database.edit_pending_bet db b.id sport team odds amount = (db, false) := by
  have hinj := List.inj_on_of_nodup_map hnd
  have hpred : ∀ x ∈ db, (x.id == b.id && x.result.isNone) = false := by
    intro x hx
    by_cases hid : x.id = b.id
    · have hxb : x = b := hinj hx hb hid
      subst hxb
      rcases hr : x.result with _ | v
      · exact absurd hr hres
      · simp [hr]
    · simp [hid]
  have hfilter : db.filter (fun x => x.id == b.id && x.result.isNone) = [] :=
    List.filter_eq_nil_iff.mpr (fun x hx => by simp [hpred x hx])
  constructor
  · unfold Database.remove_pending_bet
    rw [hfilter, List.filter_eq_self.mpr (fun x hx => by simp [hpred x hx])]
    rfl
  · simp only [Database.edit_pending_bet]
    rw [hfilter]
    have hmap : db.map (fun x =>
        if x.id == b.id && x.result.isNone then
          { x with sport := sport, team := team, odds := odds, amount := amount,
                   potential_win := Database.calculate_potential_win odds amount }
        else x) = db := by
      calc db.map (fun x =>
            if x.id == b.id && x.result.isNone then
              { x with sport := sport, team := team, odds := odds, amount := amount,
                       potential_win := Database.calculate_potential_win odds amount }
            else x)
          = db.map id := List.map_congr_left (fun x hx => by simp [hpred x hx])
        _ = db := List.map_id db
    rw [hmap]
    rfl

/-- Witness for C4: on the one-row table holding the already-Won bet 1,
removing or editing bet 1 fails and the table is unchanged. -/
theorem C4_resolved_immutable_witness :
    Database.remove_pending_bet
        [⟨1, "NFL", "Eagles", 150, 100, 150, some true, 7⟩] 1 =
      ([⟨1, "NFL", "Eagles", 150, 100, 150, some true, 7⟩], false) ∧
    Database.edit_pending_bet
        [⟨1, "NFL", "Eagles", 150, 100, 150, some true, 7⟩] 1 "MLB" "Mets" 120 50 =
      ([⟨1, "NFL", "Eagles", 150, 100, 150, some true, 7⟩], false) :=
  C4_resolved_immutable
    [⟨1, "NFL", "Eagles", 150, 100, 150, some true, 7⟩] (by decide)
    ⟨1, "NFL", "Eagles", 150, 100, 150, some true, 7⟩ (by decide) (by decide)
    "MLB" "Mets" 120 50

/-- C5: in every ledger state reachable by a sequence of `add_bet` and
`update_bet_result` operations, the statistics satisfy
`total_wagered = pending_wagers + completed_wagers` exactly. -/
theorem C5_total_wagered_split (db : DB) (h : Reachable db) :
    (Database.get_statistics db).total_wagered =
      (Database.get_statistics db).pending_wagers +
        (Database.get_statistics db).completed_wagers := by
  clear h
  show orZero (sqlSum (db.map (·.amount))) =
    orZero (sqlSum (db.map (fun b => if b.result = none then b.amount else 0))) +
      orZero (sqlSum (db.map (fun b => if b.result.isSome then b.amount else 0)))
  rcases db with _ | ⟨b, t⟩
  · simp [sqlSum, orZero]
  · simpa [sqlSum, orZero] using sum_amount_split (b :: t)

/-- Witness for C5: the state reached by adding one bet and resolving it as
won satisfies the split identity. -/
theorem C5_total_wagered_split_witness :
    (Database.get_statistics (Database.update_bet_result
        (Database.add_bet [] "NFL" "Eagles" 150 100 0).1 1 true)).total_wagered =
      (Database.get_statistics (Database.update_bet_result
        (Database.add_bet [] "NFL" "Eagles" 150 100 0).1 1 true)).pending_wagers +
        (Database.get_statistics (Database.update_bet_result
          (Database.add_bet [] "NFL" "Eagles" 150 100 0).1 1 true)).completed_wagers :=
  C5_total_wagered_split _
    (Reachable.resolve _ 1 true
      (Reachable.add [] "NFL" "Eagles" 150 100 0 Reachable.empty))

/-- C6: for every snapshot, the reported total profit — both overall and for
any one sport — equals the sum over the relevant bets of the spec's
per-bet profit: `potential_win` when won, `-amount` when lost, 0 when
pending. -/
theorem C6_total_profit (db : DB) (s : String) :
    (Database.get_statistics db).total_profit = (db.map specProfit).sum ∧
    (Database.get_statistics_by_sport db s).total_profit =
      ((db.filter (fun b => b.sport = s)).map specProfit).sum := by
  constructor
  · exact profit_orZero db
  · exact profit_orZero (db.filter (fun b => b.sport = s))

/-- C7 counterexample: the claim says the reported win rate equals 0 when
there are no completed bets.  On the empty ledger `completed_bets = 0`, yet
`display_statistics` skips the whole win-rate branch: no win rate (in
particular not 0) is reported. -/
theorem C7_counterexample_no_zero_report :
    (Database.get_statistics []).completed_bets = 0 ∧
    displayed_win_rate (Database.get_statistics []) ≠ some 0 := by
  constructor
  · rfl
  · intro h
    simp [displayed_win_rate, Database.get_statistics, orZeroN] at h

/-- C7 amended: the win rate is reported exactly when some bet is completed
(equivalently, not every stored bet is pending), in which case it equals
`wins / completedBets * 100` with a provably nonzero divisor; when
`completedBets = 0` no win rate is reported at all, so no division by zero
and no error ever occurs. -/
theorem C7_amended_win_rate (db : DB) :
    (displayed_win_rate (Database.get_statistics db) = none ↔
      ∀ b ∈ db, b.result = none) ∧
    (∀ r, displayed_win_rate (Database.get_statistics db) = some r →
      (Database.get_statistics db).completed_bets ≠ 0 ∧
      r = ((db.countP (fun b => b.result == some true) : ℚ) /
            ((Database.get_statistics db).completed_bets : ℚ)) * 100) := by
  have hc := get_statistics_completed_bets db
  have hw := get_statistics_wins db
  by_cases h : 0 < (Database.get_statistics db).completed_bets
  · constructor
    · constructor
      · intro hnone
        simp only [displayed_win_rate, if_pos h] at hnone
        exact absurd hnone (Option.some_ne_none _)
      · intro hall
        exfalso
        rw [hc] at h
        obtain ⟨x, hx⟩ := List.exists_mem_of_ne_nil _ (List.length_pos.mp h)
        obtain ⟨hxdb, hxs⟩ := List.mem_filter.mp hx
        rw [hall x hxdb] at hxs
        simp at hxs
    · intro r hr
      simp only [displayed_win_rate, if_pos h] at hr
      refine ⟨Nat.pos_iff_ne_zero.mp h, ?_⟩
      have hx := Option.some.inj hr
      rw [← hx, hw]
  · have hz : (Database.get_statistics db).completed_bets = 0 :=
      Nat.eq_zero_of_not_pos h
    have hall : ∀ b ∈ db, b.result = none := by
      rw [hc] at hz
      have hnil := List.length_eq_zero.mp hz
      intro b hb
      have hnb := List.filter_eq_nil_iff.mp hnil b hb
      simpa using hnb
    constructor
    · constructor
      · intro _
        exact hall
      · intro _
        simp only [displayed_win_rate, if_neg h]
    · intro r hr
      simp only [displayed_win_rate, if_neg h] at hr
      exact absurd hr.symm (Option.some_ne_none r)

/-- Witness for C7 amended: on a one-row ledger whose bet was resolved as
won, the reported win rate is 100 and satisfies the formula with nonzero
divisor. -/
theorem C7_amended_win_rate_witness :
    (Database.get_statistics
        [⟨1, "NFL", "Eagles", 150, 100, 150, some true, 7⟩]).completed_bets ≠ 0 ∧
    (100 : ℚ) = ((([⟨1, "NFL", "Eagles", 150, 100, 150, some true, 7⟩] :
          DB).countP (fun b => b.result == some true) : ℚ) /
        ((Database.get_statistics
          [⟨1, "NFL", "Eagles", 150, 100, 150, some true, 7⟩]).completed_bets : ℚ)) *
      100 :=
  (C7_amended_win_rate [⟨1, "NFL", "Eagles", 150, 100, 150, some true, 7⟩]).2
    100 (by norm_num [displayed_win_rate, Database.get_statistics, orZeroN,
      sqlSumN, orZero, sqlSum])

/-- C8: `get_pending_bets` selects exactly the pending rows (as a multiset,
via a permutation with the pending filter), orders them by descending
placement date, and returns their (id, sport, team, odds, amount,
potential_win) projections; being a pure function of the table, repeated
calls on the same state return the same sequence. -/
theorem C8_pending_sorted_spec (db : DB) :
    List.Perm (Database.pending_sorted db)
      (db.filter (fun b => b.result.isNone)) ∧
    (Database.pending_sorted db).Pairwise (fun a b => b.date ≤ a.date) ∧
    Database.get_pending_bets db =
      (Database.pending_sorted db).map Database.projPending := by
  refine ⟨List.mergeSort_perm _ _, ?_, rfl⟩
  have hs := @List.sorted_mergeSort BetRow Database.dateDesc
    (fun a b c h1 h2 => by
      simp only [Database.dateDesc, decide_eq_true_eq] at h1 h2 ⊢
      omega)
    (fun a b => by
      simp only [Database.dateDesc]
      by_cases hab : b.date ≤ a.date
      · simp [hab]
      · simp only [Bool.or_eq_true, decide_eq_true_eq]
        right
        omega)
    (db.filter (fun b => b.result.isNone))
  exact hs.imp (fun hab => by simpa [Database.dateDesc] using hab)

/-- C10: on the empty ledger, the overall statistics and the pending-bets
summary report 0 for every count and every monetary sum — the SQL NULL
aggregates are all converted to 0 and no error occurs. -/
theorem C10_empty_ledger_zeroes :
    Database.get_statistics [] = ⟨0, 0, 0, 0, 0, 0, 0⟩ ∧
    Database.get_pending_bets_summary [] = ⟨0, 0, 0, []⟩ := by
  constructor
  · rfl
  · simp [Database.get_pending_bets_summary, Database.sports_breakdown,
      sqlSum, orZero, orZeroN, List.dedup_nil]
